import Mathlib

/-!
Verification of the torrent-client core of this repository against its
natural-language specification.  The Python sources are shallowly embedded:
pure computations become Lean functions, the libtorrent engine is modelled
as explicit inputs (a fallible query result, a settings store, an add
outcome), Qt signal emissions become explicit event lists, and the mutable
`TorrentHandle` / registry state is threaded explicitly.
-/

namespace DsTorrent

/-! ## Status Aggregator: ETA and ratio (src/core/torrent_client.py, get_status)

`eta_seconds = (total_size - status.total_done) / status.download_payload_rate
   if status.download_payload_rate > 0 and total_size > status.total_done
   else float('inf')`  (line 119)

`ratio = status.total_payload_upload / status.total_payload_download
   if status.total_payload_download > 0 else 0.0`  (line 122)

Engine counters are integers; Python float division is modelled in ℚ and
`float('inf')` as the top element of `WithTop ℚ`. -/

def etaSeconds (totalSize totalDone payloadRate : Int) : WithTop ℚ :=
  if payloadRate > 0 ∧ totalSize > totalDone then
    (((((totalSize - totalDone : Int) : ℚ) / ((payloadRate : Int) : ℚ)) : ℚ) : WithTop ℚ)
  else
    ⊤

def ratioOf (totalPayloadUpload totalPayloadDownload : Int) : ℚ :=
  if totalPayloadDownload > 0 then
    ((totalPayloadUpload : Int) : ℚ) / ((totalPayloadDownload : Int) : ℚ)
  else
    0

/-- Claim C4: for every status snapshot, ETA equals
`(total - done) / payloadDownloadRate` when the payload download rate is
positive and bytes remain (`total > done`), and equals infinity otherwise —
in particular whenever the rate is zero or `done >= total` — and in the
finite case the ETA is non-negative (given the engine reports `done <= total`,
the numerator is positive). -/
theorem eta_snapshot_formula (total done rate : Int) :
    ((rate = 0 ∨ done ≥ total) → etaSeconds total done rate = ⊤) ∧
    (¬(rate > 0 ∧ total > done) → etaSeconds total done rate = ⊤) ∧
    (rate > 0 → total > done →
      etaSeconds total done rate
          = ((((total - done : Int) : ℚ) / ((rate : Int) : ℚ) : ℚ) : WithTop ℚ) ∧
        (0 : ℚ) ≤ ((total - done : Int) : ℚ) / ((rate : Int) : ℚ)) := by
  refine ⟨?_, ?_, ?_⟩
  · rintro (h | h) <;>
    · rw [etaSeconds, if_neg]
      rintro ⟨h1, h2⟩
      omega
  · intro h
    rw [etaSeconds, if_neg h]
  · intro h1 h2
    rw [etaSeconds, if_pos ⟨h1, h2⟩]
    refine ⟨rfl, div_nonneg ?_ ?_⟩
    · have : (0 : Int) ≤ total - done := by omega
      exact_mod_cast this
    · have : (0 : Int) ≤ rate := le_of_lt h1
      exact_mod_cast this

/-- Witness for C4: concrete evaluations — an idle transfer with remaining
bytes and a finished transfer both report infinite ETA, while an active
transfer reports the exact quotient. -/
theorem eta_snapshot_formula_witness :
    etaSeconds 100 40 0 = ⊤ ∧ etaSeconds 100 100 7 = ⊤ ∧
    etaSeconds 100 40 20 = ((3 : ℚ) : WithTop ℚ) := by
  refine ⟨(eta_snapshot_formula 100 40 0).1 (Or.inl rfl),
          (eta_snapshot_formula 100 100 7).1 (Or.inr (by decide)), ?_⟩
  have h := (eta_snapshot_formula 100 40 20).2.2 (by decide) (by decide)
  rw [h.1]
  norm_num

/-! ## Data model (src/core/torrent_client.py, class TorrentHandle)

`TorrentHandle.__init__` stores: the engine handle (modelled implicitly),
save_path, source, last_error, added_on, num_pieces, piece_length,
is_completed_flag, and the cached per-file detail list `files`.  The raw
engine-object caches (`self.info`, `self.torrent_file`) are references into
the external engine and carry no state of their own beyond the derived
numbers kept here. -/

structure FileStatus where
  path : String
  size : Int
  downloaded : Int
  progressPct : ℚ
  priority : Int
deriving DecidableEq

structure PeerEntry where
  ip : String
  port : Int
  client : String
  progressPct : ℚ
  downSpeedK : ℚ
  upSpeedK : ℚ
  flags : String
  connType : String
  src : String
deriving DecidableEq

structure TorrentRecord where
  infoHash : String
  savePath : String
  source : String
  addedOn : Int
  numPieces : Int
  pieceLength : Int
  isCompletedFlag : Bool
  lastError : Option String
  files : List FileStatus
deriving DecidableEq

/-- One per-file row as delivered by the engine inside a status query
(`fs.at(i)`, `file_progress`, `get_file_priorities`). -/
structure RawFile where
  path : String
  size : Int
  downloaded : Int
  priority : Int
deriving DecidableEq

/-- One per-peer row as delivered by the engine (`get_peer_info`); the
name/flag strings arrive already decoded by the formatting helpers, which
are pure presentation over engine enum values. -/
structure RawPeer where
  ip : String
  port : Int
  client : String
  progressFrac : ℚ
  downSpeed : Int
  upSpeed : Int
  flags : String
  connType : String
  src : String
deriving DecidableEq

/-- The bundle of values the engine returns across the queries `get_status`
performs (`handle.status()`, `has_metadata`, `get_torrent_info`,
`file_progress`, `get_peer_info`, ...).  The whole interaction is modelled
as one atomic fallible query: `Except.error e` stands for any of the
engine calls raising with message `e`. -/
structure RawStatus where
  paused : Bool
  stateName : String
  downloadRate : Int
  uploadRate : Int
  downloadPayloadRate : Int
  totalDone : Int
  progressFrac : ℚ
  numSeeds : Int
  numPeers : Int
  listSeeds : Int
  listPeers : Int
  totalDownload : Int
  totalUpload : Int
  totalPayloadUpload : Int
  totalPayloadDownload : Int
  statusHasMetadata : Bool
  handleHasMetadata : Bool
  handleValid : Bool
  distributedCopies : ℚ
  name : String
  totalSize : Int
  numPieces : Int
  pieceLength : Int
  files : List RawFile
  peers : List RawPeer
deriving DecidableEq

/-- The status dictionary built at the end of `get_status`
(torrent_client.py lines 125-150), field for field. -/
structure StatusDict where
  name : String
  savePath : String
  progress : ℚ
  downloadRate : ℚ
  uploadRate : ℚ
  state : String
  numSeeds : Int
  numPeers : Int
  totalSeeds : Int
  totalPeers : Int
  totalDownload : ℚ
  totalUpload : ℚ
  totalSize : Int
  hasMetadata : Bool
  infoHash : String
  error : Option String
  addedOn : Int
  eta : WithTop ℚ
  ratio : ℚ
  numPieces : Int
  pieceLength : Int
  distributedCopies : ℚ
  files : List FileStatus
  peers : List PeerEntry
deriving DecidableEq

/-- Outward Qt-signal emissions of `TorrentHandle` (`status_updated`,
`completed`, `error`) as explicit events. -/
inductive Notif where
  | statusUpdatedEmit (st : StatusDict)
  | completedEmit (infoHash : String)
  | errorEmit (infoHash : String) (msg : String)
deriving DecidableEq

/-- Per-file detail row construction (torrent_client.py lines 56-68):
`progress = downloaded / size * 100 if size > 0 else 0`. -/
def mkFileStatus (f : RawFile) : FileStatus :=
  { path := f.path
    size := f.size
    downloaded := f.downloaded
    progressPct := if f.size > 0 then ((f.downloaded : Int) : ℚ) / ((f.size : Int) : ℚ) * 100 else 0
    priority := f.priority }

/-- Per-peer row construction (torrent_client.py lines 86-106):
progress scaled to percent, speeds scaled to KiB/s. -/
def mkPeerEntry (p : RawPeer) : PeerEntry :=
  { ip := p.ip
    port := p.port
    client := p.client
    progressPct := p.progressFrac * 100
    downSpeedK := ((p.downSpeed : Int) : ℚ) / 1024
    upSpeedK := ((p.upSpeed : Int) : ℚ) / 1024
    flags := p.flags
    connType := p.connType
    src := p.src }

/-- The metadata branch of `get_status` (lines 37-81): with handle metadata
the name/size come from the torrent info and the record caches piece counts
and the per-file list; without it, a transient `status.has_metadata` still
yields name/size/pieces; otherwise the fetching-metadata sentinel with size
zero.  Returns (name, total_size, updated record). -/
def metadataView (rec : TorrentRecord) (raw : RawStatus) : String × Int × TorrentRecord :=
  if raw.handleHasMetadata then
    (raw.name, raw.totalSize,
      { rec with
          numPieces := raw.numPieces
          pieceLength := raw.pieceLength
          files := raw.files.map mkFileStatus })
  else if raw.statusHasMetadata then
    (raw.name, raw.totalSize,
      { rec with numPieces := raw.numPieces, pieceLength := raw.pieceLength })
  else
    ("Fetching metadata...", 0, rec)

/-- `TorrentHandle.get_status` (torrent_client.py lines 32-158).  The whole
body runs inside one try/except; the except arm logs, records
`last_error`, emits `error(info_hash, message)` and returns None — so the
function is total for its caller.  Returns (returned snapshot, updated
record, emitted events). -/
def get_status (rec : TorrentRecord) (engine : Except String RawStatus) :
    Option StatusDict × TorrentRecord × List Notif :=
  match engine with
  | .error e => (none, { rec with lastError := some e }, [Notif.errorEmit rec.infoHash e])
  | .ok raw =>
    let mv := metadataView rec raw
    let name := mv.1
    let totalSize := mv.2.1
    let rec1 := mv.2.2
    let peerList := if raw.handleValid then raw.peers.map mkPeerEntry else []
    let sr : String × ℚ × ℚ :=
      if raw.paused then ("paused", 0, 0)
      else (raw.stateName, ((raw.downloadRate : Int) : ℚ) / 1024, ((raw.uploadRate : Int) : ℚ) / 1024)
    (some
      { name := name
        savePath := rec.savePath
        progress := raw.progressFrac * 100
        downloadRate := sr.2.1
        uploadRate := sr.2.2
        state := sr.1
        numSeeds := raw.numSeeds
        numPeers := raw.numPeers
        totalSeeds := raw.listSeeds
        totalPeers := raw.listPeers
        totalDownload := ((raw.totalDownload : Int) : ℚ) / (1024 * 1024)
        totalUpload := ((raw.totalUpload : Int) : ℚ) / (1024 * 1024)
        totalSize := totalSize
        hasMetadata := raw.statusHasMetadata
        infoHash := rec.infoHash
        error := rec1.lastError
        addedOn := rec.addedOn
        eta := etaSeconds totalSize raw.totalDone raw.downloadPayloadRate
        ratio := ratioOf raw.totalPayloadUpload raw.totalPayloadDownload
        numPieces := rec1.numPieces
        pieceLength := rec1.pieceLength
        distributedCopies := raw.distributedCopies
        files := if raw.handleHasMetadata then rec1.files else []
        peers := peerList },
      rec1, [])

lemma metadataView_infoHash (rec : TorrentRecord) (raw : RawStatus) :
    (metadataView rec raw).2.2.infoHash = rec.infoHash := by
  rw [metadataView]
  split <;> [rfl; skip]
  split <;> rfl

lemma metadataView_isCompletedFlag (rec : TorrentRecord) (raw : RawStatus) :
    (metadataView rec raw).2.2.isCompletedFlag = rec.isCompletedFlag := by
  rw [metadataView]
  split <;> [rfl; skip]
  split <;> rfl

lemma get_status_infoHash (rec : TorrentRecord) (engine : Except String RawStatus) :
    (get_status rec engine).2.1.infoHash = rec.infoHash := by
  cases engine with
  | error e => rfl
  | ok raw => exact metadataView_infoHash rec raw

lemma get_status_isCompletedFlag (rec : TorrentRecord) (engine : Except String RawStatus) :
    (get_status rec engine).2.1.isCompletedFlag = rec.isCompletedFlag := by
  cases engine with
  | error e => rfl
  | ok raw => exact metadataView_isCompletedFlag rec raw

/-- On an engine failure `get_status` emits exactly one error event, with
the record's info hash and the failure message. -/
lemma get_status_error_shape (rec : TorrentRecord) (e : String) :
    get_status rec (Except.error e)
      = (none, { rec with lastError := some e }, [Notif.errorEmit rec.infoHash e]) := rfl

/-- On engine success `get_status` returns a snapshot and emits nothing. -/
lemma get_status_ok_shape (rec : TorrentRecord) (raw : RawStatus) :
    ∃ st, get_status rec (Except.ok raw) = (some st, (metadataView rec raw).2.2, []) :=
  ⟨_, rfl⟩

/-- Claim C10: `get_status` never propagates an exception to its caller:
when the underlying engine interaction raises with message `e` it returns
`none`, records `e` in the record's last-error field and emits an error
notification carrying the torrent's identity hash; when the engine
interaction succeeds it returns a status dictionary. -/
theorem get_status_never_raises (rec : TorrentRecord) (engine : Except String RawStatus) :
    (∀ e, engine = Except.error e →
      (get_status rec engine).1 = none ∧
      (get_status rec engine).2.1.lastError = some e ∧
      Notif.errorEmit rec.infoHash e ∈ (get_status rec engine).2.2) ∧
    (∀ raw, engine = Except.ok raw → ∃ st, (get_status rec engine).1 = some st) := by
  constructor
  · rintro e rfl
    exact ⟨rfl, rfl, List.mem_singleton.mpr rfl⟩
  · rintro raw rfl
    exact ⟨_, rfl⟩

/-- A concrete engine result bundle used by witnesses. -/
def rawW : RawStatus :=
  { paused := false
    stateName := "downloading"
    downloadRate := 2048
    uploadRate := 1024
    downloadPayloadRate := 2000
    totalDone := 40
    progressFrac := (2 : ℚ) / 5
    numSeeds := 3
    numPeers := 4
    listSeeds := 10
    listPeers := 20
    totalDownload := 1048576
    totalUpload := 524288
    totalPayloadUpload := 500
    totalPayloadDownload := 1000
    statusHasMetadata := true
    handleHasMetadata := true
    handleValid := true
    distributedCopies := 2
    name := "ubuntu.iso"
    totalSize := 100
    numPieces := 8
    pieceLength := 16384
    files := [{ path := "ubuntu.iso", size := 100, downloaded := 40, priority := 4 }]
    peers := [] }

/-- A concrete torrent record used by witnesses. -/
def recW : TorrentRecord :=
  { infoHash := "abc123"
    savePath := "/downloads"
    source := "magnet:?xt=urn:btih:abc123"
    addedOn := 1700000000
    numPieces := 0
    pieceLength := 0
    isCompletedFlag := false
    lastError := none
    files := [] }

/-- Witness for C10: at a concrete record, a failing engine query yields
`none` with the error recorded and emitted, and a succeeding query yields a
snapshot. -/
theorem get_status_never_raises_witness :
    ((get_status recW (Except.error "boom")).1 = none ∧
      (get_status recW (Except.error "boom")).2.1.lastError = some "boom" ∧
      Notif.errorEmit recW.infoHash "boom" ∈ (get_status recW (Except.error "boom")).2.2) ∧
    (∃ st, (get_status recW (Except.ok rawW)).1 = some st) :=
  ⟨(get_status_never_raises recW (Except.error "boom")).1 "boom" rfl,
   (get_status_never_raises recW (Except.ok rawW)).2 rawW rfl⟩

/-! ## Pause (src/core/torrent_client.py, TorrentHandle.pause, lines 160-174)

`pause` issues `handle.pause()` then `handle.auto_managed(False)`, then
recomputes a snapshot via `get_status` and, when one is produced, emits it
with `download_rate` and `upload_rate` overwritten to 0.  The whole body is
in a try/except; `pauseCallFailure` models the engine pause/auto-managed
calls themselves raising, in which case the snapshot step is never
reached. -/

inductive EngineCmd where
  | pauseHandle
  | setAutoManaged (b : Bool)
  | resumeHandle
  | forceReannounce
  | forceDhtAnnounce
deriving DecidableEq

def pauseTorrent (rec : TorrentRecord) (pauseCallFailure : Option String)
    (engine : Except String RawStatus) :
    TorrentRecord × List EngineCmd × List Notif :=
  match pauseCallFailure with
  | some e => ({ rec with lastError := some e }, [], [Notif.errorEmit rec.infoHash e])
  | none =>
    let cmds := [EngineCmd.pauseHandle, EngineCmd.setAutoManaged false]
    match get_status rec engine with
    | (some st, rec1, evs) =>
      (rec1, cmds,
        evs ++ [Notif.statusUpdatedEmit { st with downloadRate := 0, uploadRate := 0 }])
    | (none, rec1, evs) => (rec1, cmds, evs)

/-- Claim C5: pausing disables engine auto-management and the snapshot the
pause call emits reports download and upload rates of exactly 0, even when
the engine still reports a nonzero trailing rate (and is not yet marked
paused) immediately after the pause call. -/
theorem pause_forces_zero_rates (rec : TorrentRecord) (raw : RawStatus)
    (_hp : raw.paused = false) (_hr : raw.downloadRate ≠ 0 ∨ raw.uploadRate ≠ 0) :
    (pauseTorrent rec none (Except.ok raw)).2.1
        = [EngineCmd.pauseHandle, EngineCmd.setAutoManaged false] ∧
    ∃ st, (pauseTorrent rec none (Except.ok raw)).2.2 = [Notif.statusUpdatedEmit st] ∧
      st.downloadRate = 0 ∧ st.uploadRate = 0 := by
  exact ⟨rfl, ⟨_, rfl, rfl, rfl⟩⟩

/-- Witness for C5: with the engine reporting an unpaused status and a
2048 B/s trailing download rate, the emitted snapshot still carries rate
exactly 0 and auto-management is switched off. -/
theorem pause_forces_zero_rates_witness :
    (pauseTorrent recW none (Except.ok rawW)).2.1
        = [EngineCmd.pauseHandle, EngineCmd.setAutoManaged false] ∧
    ∃ st, (pauseTorrent recW none (Except.ok rawW)).2.2 = [Notif.statusUpdatedEmit st] ∧
      st.downloadRate = 0 ∧ st.uploadRate = 0 :=
  pause_forces_zero_rates recW rawW rfl (Or.inl (by decide))

/-! ## Torrent-finished alert handling
(src/core/torrent_client.py, _monitor_alerts, lines 571-585)

```
should_notify = not torrent_obj.is_completed_flag  # check flag BEFORE setting it
torrent_obj.is_completed_flag = True               # set the flag
if should_notify:
    torrent_obj.completed.emit(info_hash_str)      # only emit if not already complete
status = torrent_obj.get_status()
if status:
    torrent_obj.status_updated.emit(status)
```
-/

def handleTorrentFinished (rec : TorrentRecord) (engine : Except String RawStatus) :
    TorrentRecord × List Notif :=
  let shouldNotify := !rec.isCompletedFlag
  let rec1 := { rec with isCompletedFlag := true }
  let completedEvs := if shouldNotify then [Notif.completedEmit rec.infoHash] else []
  match get_status rec1 engine with
  | (some st, rec2, evs) => (rec2, completedEvs ++ evs ++ [Notif.statusUpdatedEmit st])
  | (none, rec2, evs) => (rec2, completedEvs ++ evs)

lemma handleTorrentFinished_flag (rec : TorrentRecord) (engine : Except String RawStatus) :
    (handleTorrentFinished rec engine).1.isCompletedFlag = true := by
  rw [handleTorrentFinished]
  cases h : get_status { rec with isCompletedFlag := true } engine with
  | mk stOpt rest =>
    have hflag : rest.1.isCompletedFlag = true := by
      have := get_status_isCompletedFlag { rec with isCompletedFlag := true } engine
      rw [h] at this
      exact this
    cases stOpt <;> simpa using hflag

lemma handleTorrentFinished_infoHash (rec : TorrentRecord) (engine : Except String RawStatus) :
    (handleTorrentFinished rec engine).1.infoHash = rec.infoHash := by
  rw [handleTorrentFinished]
  cases h : get_status { rec with isCompletedFlag := true } engine with
  | mk stOpt rest =>
    have hh : rest.1.infoHash = rec.infoHash := by
      have := get_status_infoHash { rec with isCompletedFlag := true } engine
      rw [h] at this
      exact this
    cases stOpt <;> simpa using hh

lemma handleTorrentFinished_notify_iff (rec : TorrentRecord)
    (engine : Except String RawStatus) (h : String) :
    Notif.completedEmit h ∈ (handleTorrentFinished rec engine).2
      ↔ (rec.isCompletedFlag = false ∧ h = rec.infoHash) := by
  rw [handleTorrentFinished]
  cases engine with
  | error e =>
    rw [get_status_error_shape]
    cases hf : rec.isCompletedFlag <;> simp [hf]
  | ok raw =>
    obtain ⟨st, hst⟩ := get_status_ok_shape { rec with isCompletedFlag := true } raw
    rw [hst]
    cases hf : rec.isCompletedFlag <;> simp [hf]

/-- Claim C3: the completion flag transitions false→true at most once and
never resets; the completion notification is emitted on a finished alert
exactly when the flag was previously false (a second finished alert never
re-notifies), while the status snapshot is recomputed and emitted whenever
the recomputation succeeds, regardless of the flag. -/
theorem completion_edge_triggered (rec : TorrentRecord) (engine : Except String RawStatus) :
    ((handleTorrentFinished rec engine).1.isCompletedFlag = true) ∧
    (Notif.completedEmit rec.infoHash ∈ (handleTorrentFinished rec engine).2
      ↔ rec.isCompletedFlag = false) ∧
    (∀ engine2 h,
      Notif.completedEmit h ∉
        (handleTorrentFinished (handleTorrentFinished rec engine).1 engine2).2) ∧
    (∀ raw, engine = Except.ok raw →
      ∃ st, Notif.statusUpdatedEmit st ∈ (handleTorrentFinished rec engine).2) := by
  refine ⟨handleTorrentFinished_flag rec engine, ?_, ?_, ?_⟩
  · rw [handleTorrentFinished_notify_iff]
    simp
  · intro engine2 h hmem
    rw [handleTorrentFinished_notify_iff] at hmem
    have := handleTorrentFinished_flag rec engine
    rw [this] at hmem
    exact absurd hmem.1 (by simp)
  · rintro raw rfl
    rw [handleTorrentFinished]
    obtain ⟨st, hst⟩ := get_status_ok_shape { rec with isCompletedFlag := true } raw
    rw [hst]
    exact ⟨st, by simp⟩

/-- Witness for C3: a torrent whose flag is false gets exactly one
completion notification on the first finished alert and a status snapshot,
and a repeat of the same alert does not re-notify. -/
theorem completion_edge_triggered_witness :
    Notif.completedEmit recW.infoHash ∈ (handleTorrentFinished recW (Except.ok rawW)).2 ∧
    (Notif.completedEmit recW.infoHash ∉
      (handleTorrentFinished (handleTorrentFinished recW (Except.ok rawW)).1
        (Except.ok rawW)).2) ∧
    (∃ st, Notif.statusUpdatedEmit st ∈ (handleTorrentFinished recW (Except.ok rawW)).2) :=
  ⟨(completion_edge_triggered recW (Except.ok rawW)).2.1.mpr rfl,
   (completion_edge_triggered recW (Except.ok rawW)).2.2.1 (Except.ok rawW) recW.infoHash,
   (completion_edge_triggered recW (Except.ok rawW)).2.2.2 rawW rfl⟩

/-! ## Alert-monitor loop control flow
(src/core/torrent_client.py, _monitor_alerts, lines 541-639)

```
while True:
    try:
        alerts = self.session.pop_alerts()
        for alert in alerts:
            <dispatch on alert category>
    except Exception as e:
        logger.error(...)
    time.sleep(0.1)
```

The try/except encloses the whole `for alert in alerts` drain, not the body
of a single iteration.  The per-alert dispatch (whose engine and Qt calls
may raise) is abstracted as `f : σ → α → Except ε σ`; `σ` is the mutable
state the dispatch touches and an `Except.error` is an exception escaping
the processing of one alert.  `drainCycle` is one iteration of the while
loop (one `pop_alerts` batch under the try), `runAlertBatch` is the bare
uncaught for-loop, and `monitorCycles` is the while loop across successive
batches. -/

def runAlertBatch {σ α ε : Type} (f : σ → α → Except ε σ) : σ → List α → Except ε σ
  | s, [] => Except.ok s
  | s, a :: rest =>
    match f s a with
    | Except.ok s2 => runAlertBatch f s2 rest
    | Except.error e => Except.error e

def drainCycle {σ α ε : Type} (f : σ → α → Except ε σ) : σ → List α → σ
  | s, [] => s
  | s, a :: rest =>
    match f s a with
    | Except.ok s2 => drainCycle f s2 rest
    | Except.error _ => s

def monitorCycles {σ α ε : Type} (f : σ → α → Except ε σ) (s : σ) : List (List α) → σ
  | [] => s
  | c :: more => monitorCycles f (drainCycle f s c) more

/-- Counterexample to C2: in the drain cycle `[none, some 5]`, where
processing `none` raises and processing `some n` appends `n` to the state,
the alert `some 5` — processed fine on its own — is never reached once the
preceding alert raises: the exception is caught outside the for loop, so
the rest of the same drain cycle is skipped. -/
theorem alert_isolation_counterexample :
    drainCycle
        (fun (s : List Nat) (a : Option Nat) =>
          match a with
          | some n => Except.ok (s ++ [n])
          | none => Except.error ())
        [] [some 5] = [5] ∧
    drainCycle
        (fun (s : List Nat) (a : Option Nat) =>
          match a with
          | some n => Except.ok (s ++ [n])
          | none => Except.error ())
        [] [none, some 5] = [] :=
  ⟨rfl, rfl⟩

/-- Claim C2 as amended: an exception raised while processing one alert is
caught at the drain-cycle boundary (the try/except wraps the whole for
loop), so it does not terminate the monitor loop — the next cycle proceeds
from the state reached — but it does abort the remaining alerts of the
same drain cycle: the cycle's result is the state at the failing alert,
with the suffix unprocessed. -/
theorem alert_exception_cycle_boundary {σ α ε : Type} (f : σ → α → Except ε σ)
    (s s2 : σ) (pre suf : List α) (a : α) (e : ε) (more : List (List α))
    (hpre : runAlertBatch f s pre = Except.ok s2) (ha : f s2 a = Except.error e) :
    drainCycle f s (pre ++ a :: suf) = s2 ∧
    monitorCycles f s ((pre ++ a :: suf) :: more) = monitorCycles f s2 more := by
  have h1 : drainCycle f s (pre ++ a :: suf) = s2 := by
    induction pre generalizing s with
    | nil =>
      rw [runAlertBatch] at hpre
      cases hpre
      rw [List.nil_append, drainCycle, ha]
    | cons p rest ih =>
      rw [runAlertBatch] at hpre
      cases hfp : f s p with
      | ok s3 =>
        rw [hfp] at hpre
        rw [List.cons_append, drainCycle, hfp]
        exact ih s3 hpre
      | error e2 =>
        rw [hfp] at hpre
        exact absurd hpre (by simp)
  refine ⟨h1, ?_⟩
  rw [monitorCycles, h1]

/-- Witness for the amended C2: cycle `[some 1, none, some 5]` processes
`some 1`, raises on `none`, skips `some 5`, and the following cycle
`[some 7]` still runs, yielding `[1, 7]`. -/
theorem alert_exception_cycle_boundary_witness :
    drainCycle
        (fun (s : List Nat) (a : Option Nat) =>
          match a with
          | some n => Except.ok (s ++ [n])
          | none => Except.error ())
        [] ([some 1] ++ none :: [some 5]) = [1] ∧
    monitorCycles
        (fun (s : List Nat) (a : Option Nat) =>
          match a with
          | some n => Except.ok (s ++ [n])
          | none => Except.error ())
        [] (([some 1] ++ none :: [some 5]) :: [[some 7]]) =
      monitorCycles
        (fun (s : List Nat) (a : Option Nat) =>
          match a with
          | some n => Except.ok (s ++ [n])
          | none => Except.error ())
        [1] [[some 7]] :=
  alert_exception_cycle_boundary
    (fun (s : List Nat) (a : Option Nat) =>
      match a with
      | some n => Except.ok (s ++ [n])
      | none => Except.error ())
    [] [1] [some 1] [some 5] none () [[some 7]] rfl rfl

/-! ## Adding and removing torrents
(src/core/torrent_client.py, TorrentClient.add_torrent lines 373-497 and
TorrentClient.remove_torrent lines 499-526)

The registry `self.torrents` (identity hash → wrapper) is a map; Qt signal
emissions and engine side effects of the add/remove paths are recorded as
event lists.  Engine outcomes (magnet parse / torrent-file load success,
the `session.add_torrent` call succeeding, validity of the resulting
handle, and the hash it reports) are inputs. -/

abbrev Registry := String → Option TorrentRecord

def registryInsert (reg : Registry) (h : String) (rec : TorrentRecord) : Registry :=
  fun k => if k = h then some rec else reg k

def registryErase (reg : Registry) (h : String) : Registry :=
  fun k => if k = h then none else reg k

/-- Python truthiness of the `resume_data_bytes` argument: `None` and the
empty byte string are falsy. -/
def truthyBytes : Option (List Nat) → Bool
  | some b => !b.isEmpty
  | none => false

/-- Structural string-prefix test (used instead of `String.startsWith`,
whose well-founded implementation does not reduce definitionally). -/
def charPrefixOf : List Char → List Char → Bool
  | _, [] => true
  | [], _ :: _ => false
  | c :: cs, p :: ps => c == p && charPrefixOf cs ps

/-- `source.startswith('magnet:')`. -/
def isMagnet (source : String) : Bool := charPrefixOf source.data "magnet:".data

/-- The add-parameters assembled before `session.add_torrent`: save path,
the flag bits the code manipulates (`auto_managed`, `paused`, `seed_mode`,
`upload_mode`), the optional `resume_data` attachment and whether a
torrent-info descriptor (`params.ti`) is present. -/
structure AddParams where
  savePath : String
  autoManaged : Bool
  paused : Bool
  seedMode : Bool
  uploadMode : Bool
  resumeData : Option (List Nat)
  hasTi : Bool
deriving DecidableEq

/-- Magnet branch (lines 391-423): `parse_magnet_uri`, save path, then
`flags |= auto_managed`, `flags &= ~paused`.  `resume_data`, `seed_mode`
and `upload_mode` are deliberately left at their defaults (absent/clear)
whatever the resume blob or completed hint say. -/
def buildMagnetParams (savePath : String) : AddParams :=
  { savePath := savePath
    autoManaged := true
    paused := false
    seedMode := false
    uploadMode := false
    resumeData := none
    hasTi := false }

/-- File branch (lines 425-455): `params.ti` is set, same flag handling,
then for a completed load with a (truthy) resume blob the blob is attached
first and `seed_mode` set afterwards; a resume blob alone is attached with
no extra flag. -/
def buildFileParams (savePath : String) (resumeDataBytes : Option (List Nat))
    (isCompletedOnLoad : Bool) : AddParams :=
  let base : AddParams :=
    { savePath := savePath
      autoManaged := true
      paused := false
      seedMode := false
      uploadMode := false
      resumeData := none
      hasTi := true }
  if isCompletedOnLoad && truthyBytes resumeDataBytes then
    { base with resumeData := resumeDataBytes, seedMode := true }
  else if truthyBytes resumeDataBytes then
    { base with resumeData := resumeDataBytes }
  else base

/-- Engine-side outcome of one add call: whether the magnet parse /
torrent-file load succeeds, whether `session.add_torrent` itself succeeds,
whether the returned handle is valid, and the identity hash it reports. -/
structure AddEngine where
  parseOk : Bool
  addOk : Bool
  handleValid : Bool
  infoHash : String
deriving DecidableEq

inductive AddEvent where
  | engineAdd (p : AddParams)
  | registryInsertEv (h : String)
  | forceRecheck (h : String)
  | torrentAddedEmit (h : String)
  | errorEmit (msg : String)
deriving DecidableEq

/-- The wrapper record created on a successful add (`TorrentHandle.__init__`
followed by the `is_completed_flag = True` assignment for completed
loads). -/
def mkTorrentRecord (infoHash savePath source : String) (addedOn : Int)
    (isCompletedOnLoad : Bool) : TorrentRecord :=
  { infoHash := infoHash
    savePath := savePath
    source := source
    addedOn := addedOn
    numPieces := 0
    pieceLength := 0
    isCompletedFlag := isCompletedOnLoad
    lastError := none
    files := [] }

/-- `TorrentClient.add_torrent` (lines 373-497).  Returns (created record
or `none` on failure, updated registry, events in program order).  The
force-recheck step mirrors lines 474-488: nothing for magnets (recheck is
deferred past metadata), and an immediate `force_recheck` for file-backed
adds carrying a truthy resume blob or the completed hint. -/
def add_torrent (reg : Registry) (source savePath : String)
    (resumeDataBytes : Option (List Nat)) (isCompletedOnLoad : Bool)
    (eng : AddEngine) (addedOn : Int) :
    Option TorrentRecord × Registry × List AddEvent :=
  let branch : Option AddParams × List AddEvent :=
    if isMagnet source then
      if eng.parseOk then
        if eng.addOk then
          (some (buildMagnetParams savePath),
            [AddEvent.engineAdd (buildMagnetParams savePath)])
        else (none, [AddEvent.errorEmit "Error processing magnet link"])
      else (none, [AddEvent.errorEmit "Error processing magnet link"])
    else
      if eng.parseOk then
        if eng.addOk then
          (some (buildFileParams savePath resumeDataBytes isCompletedOnLoad),
            [AddEvent.engineAdd (buildFileParams savePath resumeDataBytes isCompletedOnLoad)])
        else (none, [AddEvent.errorEmit "Error loading torrent file"])
      else (none, [AddEvent.errorEmit "Error loading torrent file"])
  match branch with
  | (none, evs) => (none, reg, evs)
  | (some _, evs) =>
    if eng.handleValid then
      let rec2 := mkTorrentRecord eng.infoHash savePath source addedOn isCompletedOnLoad
      let reg2 := registryInsert reg eng.infoHash rec2
      let recheckEvs :=
        if isMagnet source then []
        else if truthyBytes resumeDataBytes || (!isMagnet source && isCompletedOnLoad) then
          [AddEvent.forceRecheck eng.infoHash]
        else []
      (some rec2, reg2,
        evs ++ [AddEvent.registryInsertEv eng.infoHash] ++ recheckEvs
            ++ [AddEvent.torrentAddedEmit eng.infoHash])
    else (none, reg, evs ++ [AddEvent.errorEmit "Failed to add torrent"])

/-- Events of the remove path: the best-effort final resume-data save
request, the engine detach, the resume-file deletion. -/
inductive RemoveEvent where
  | saveResumeRequest (h : String)
  | engineRemove (h : String) (deleteFiles : Bool)
  | resumeFileDelete (h : String)
deriving DecidableEq

/-- `TorrentClient.remove_torrent` (lines 499-526): the entire body is
guarded by `if info_hash in self.torrents`, so an absent hash does
nothing.  `handleValid` and `resumeFileExists` are the engine/filesystem
observations made inside the guarded body. -/
def remove_torrent (reg : Registry) (infoHash : String) (deleteFiles : Bool)
    (handleValid : Bool) (resumeFileExists : Bool) : Registry × List RemoveEvent :=
  match reg infoHash with
  | none => (reg, [])
  | some _ =>
    let evs :=
      (if handleValid then [RemoveEvent.saveResumeRequest infoHash] else [])
        ++ [RemoveEvent.engineRemove infoHash deleteFiles]
        ++ (if resumeFileExists then [RemoveEvent.resumeFileDelete infoHash] else [])
    (registryErase reg infoHash, evs)

/-- Event trace of an add call on a magnet source, by engine outcome. -/
lemma add_torrent_magnet_events (reg : Registry) (source savePath : String)
    (resumeDataBytes : Option (List Nat)) (isCompletedOnLoad : Bool)
    (eng : AddEngine) (addedOn : Int) (hm : isMagnet source = true) :
    (add_torrent reg source savePath resumeDataBytes isCompletedOnLoad eng addedOn).2.2
      = if eng.parseOk then
          if eng.addOk then
            if eng.handleValid then
              [AddEvent.engineAdd (buildMagnetParams savePath),
               AddEvent.registryInsertEv eng.infoHash,
               AddEvent.torrentAddedEmit eng.infoHash]
            else
              [AddEvent.engineAdd (buildMagnetParams savePath),
               AddEvent.errorEmit "Failed to add torrent"]
          else [AddEvent.errorEmit "Error processing magnet link"]
        else [AddEvent.errorEmit "Error processing magnet link"] := by
  rw [add_torrent]
  cases hp : eng.parseOk <;> cases ha : eng.addOk <;> cases hv : eng.handleValid <;>
    simp [hm, hp, ha, hv]

/-- Claim C6: for every add call on a magnet source, the parameters handed
to the engine never carry a resume blob and never set the seed/upload-mode
flags — whatever the supplied resume bytes and completed hint are — the
magnet is added normally (auto-managed, not paused), and no immediate
force-recheck is issued by the add call (re-verification waits for
metadata). -/
theorem magnet_add_never_attaches_resume (reg : Registry) (source savePath : String)
    (resumeDataBytes : Option (List Nat)) (isCompletedOnLoad : Bool)
    (eng : AddEngine) (addedOn : Int) (hm : isMagnet source = true) :
    (∀ p, AddEvent.engineAdd p ∈
        (add_torrent reg source savePath resumeDataBytes isCompletedOnLoad eng addedOn).2.2 →
      p.resumeData = none ∧ p.seedMode = false ∧ p.uploadMode = false ∧
        p.autoManaged = true ∧ p.paused = false) ∧
    (∀ h, AddEvent.forceRecheck h ∉
        (add_torrent reg source savePath resumeDataBytes isCompletedOnLoad eng addedOn).2.2) := by
  constructor
  · intro p hmem
    rw [add_torrent_magnet_events reg source savePath resumeDataBytes isCompletedOnLoad
      eng addedOn hm] at hmem
    have hp : p = buildMagnetParams savePath := by
      split_ifs at hmem <;> simp at hmem <;> exact hmem
    subst hp
    exact ⟨rfl, rfl, rfl, rfl, rfl⟩
  · intro h hmem
    rw [add_torrent_magnet_events reg source savePath resumeDataBytes isCompletedOnLoad
      eng addedOn hm] at hmem
    split_ifs at hmem <;> simp at hmem

/-- Witness for C6: a completed-hint magnet with a nonempty resume blob is
added with no recheck event, and the parameters handed to the engine carry
no resume data and no seed mode. -/
theorem magnet_add_never_attaches_resume_witness :
    (AddEvent.forceRecheck "abc123" ∉
      (add_torrent (fun _ => none) "magnet:?xt=urn:btih:abc123" "/downloads"
        (some [1, 2, 3]) true
        { parseOk := true, addOk := true, handleValid := true, infoHash := "abc123" }
        5).2.2) ∧
    (buildMagnetParams "/downloads").resumeData = none ∧
    (buildMagnetParams "/downloads").seedMode = false :=
  ⟨(magnet_add_never_attaches_resume (fun _ => none) "magnet:?xt=urn:btih:abc123"
      "/downloads" (some [1, 2, 3]) true
      { parseOk := true, addOk := true, handleValid := true, infoHash := "abc123" }
      5 (by decide)).2 "abc123",
   ((magnet_add_never_attaches_resume (fun _ => none) "magnet:?xt=urn:btih:abc123"
      "/downloads" (some [1, 2, 3]) true
      { parseOk := true, addOk := true, handleValid := true, infoHash := "abc123" }
      5 (by decide)).1 (buildMagnetParams "/downloads") (by decide)).1,
   ((magnet_add_never_attaches_resume (fun _ => none) "magnet:?xt=urn:btih:abc123"
      "/downloads" (some [1, 2, 3]) true
      { parseOk := true, addOk := true, handleValid := true, infoHash := "abc123" }
      5 (by decide)).1 (buildMagnetParams "/downloads") (by decide)).2.1⟩

/-- Claim C7: every successful file-backed add that carries a (truthy)
resume blob or the completed hint issues exactly one immediate
force-recheck, placed after the registry insertion and before the
torrent-added notification — the full event trace is pinned down, so the
recheck is never skipped. -/
theorem file_add_forces_recheck (reg : Registry) (source savePath : String)
    (resumeDataBytes : Option (List Nat)) (isCompletedOnLoad : Bool)
    (eng : AddEngine) (addedOn : Int)
    (hm : isMagnet source = false) (hp : eng.parseOk = true) (ha : eng.addOk = true)
    (hv : eng.handleValid = true)
    (hr : (truthyBytes resumeDataBytes || isCompletedOnLoad) = true) :
    add_torrent reg source savePath resumeDataBytes isCompletedOnLoad eng addedOn
      = (some (mkTorrentRecord eng.infoHash savePath source addedOn isCompletedOnLoad),
         registryInsert reg eng.infoHash
           (mkTorrentRecord eng.infoHash savePath source addedOn isCompletedOnLoad),
         [AddEvent.engineAdd (buildFileParams savePath resumeDataBytes isCompletedOnLoad),
          AddEvent.registryInsertEv eng.infoHash,
          AddEvent.forceRecheck eng.infoHash,
          AddEvent.torrentAddedEmit eng.infoHash]) := by
  rw [add_torrent]
  simp [hm, hp, ha, hv, hr]

/-- Witness for C7: a concrete `.torrent` add with a nonempty resume blob
produces the engine-add / registry-insert / force-recheck / torrent-added
trace. -/
theorem file_add_forces_recheck_witness :
    add_torrent (fun _ => none) "/t/u.torrent" "/downloads" (some [1]) false
        { parseOk := true, addOk := true, handleValid := true, infoHash := "abc123" } 5
      = (some (mkTorrentRecord "abc123" "/downloads" "/t/u.torrent" 5 false),
         registryInsert (fun _ => none) "abc123"
           (mkTorrentRecord "abc123" "/downloads" "/t/u.torrent" 5 false),
         [AddEvent.engineAdd (buildFileParams "/downloads" (some [1]) false),
          AddEvent.registryInsertEv "abc123",
          AddEvent.forceRecheck "abc123",
          AddEvent.torrentAddedEmit "abc123"]) :=
  file_add_forces_recheck (fun _ => none) "/t/u.torrent" "/downloads" (some [1]) false
    { parseOk := true, addOk := true, handleValid := true, infoHash := "abc123" } 5
    (by decide) rfl rfl rfl (by decide)

/-- Claim C8: removing an identity hash that is not in the registry is a
no-op — the registry is returned unchanged and no engine detach, resume
save request or resume-file deletion happens (and, the function being
total, nothing is raised). -/
theorem remove_absent_hash_noop (reg : Registry) (infoHash : String)
    (deleteFiles handleValid resumeFileExists : Bool)
    (h : reg infoHash = none) :
    remove_torrent reg infoHash deleteFiles handleValid resumeFileExists = (reg, []) := by
  rw [remove_torrent, h]

/-- Witness for C8: removing from the empty registry does nothing. -/
theorem remove_absent_hash_noop_witness :
    remove_torrent (fun _ => none) "deadbeef" true true true = ((fun _ => none), []) :=
  remove_absent_hash_noop (fun _ => none) "deadbeef" true true true rfl

/-! ## Session settings application

Two implementations of `apply_session_settings` exist in the repository:

* `src/core/torrent_client.py` lines 348-368 (the class the GUI
  instantiates): the whole settings dictionary is forwarded to the engine
  in a single `self.session.apply_settings(settings_dict)` call inside one
  try/except; on failure an error is logged and emitted and nothing else
  happens — no per-key retry and no re-read of effective settings.
* `src/core/client.py` lines 11-31: each key is applied in its own
  `self.session.apply_settings({key: value})` call with its own
  try/except (a rejected key is logged and skipped), and afterwards
  `self.current_settings` is replaced wholesale from
  `self.session.get_settings()`.

The engine session is modelled as a store of setting values plus a fixed
validity predicate on keys; per the engine contract, `apply_settings` may
raise on a rejected key, and a batch call validates the supplied map and
raises without applying it (which is exactly why the per-key loop of
client.py catches `RuntimeError` around each single-key call). -/

structure SettingsEngine where
  valid : String → Bool
  store : String → Option Int

/-- One single-key `session.apply_settings({key: value})` call: the engine
either applies the value or raises. -/
def SettingsEngine.applyOne (e : SettingsEngine) (k : String) (v : Int) :
    Except String SettingsEngine :=
  if e.valid k then
    Except.ok { e with store := fun k2 => if k2 = k then some v else e.store k2 }
  else Except.error k

/-- A batch `session.apply_settings(dict)` call: the map is validated as a
whole and rejected — applying nothing — if any key is invalid. -/
def SettingsEngine.applyBatch (e : SettingsEngine) (m : List (String × Int)) :
    Except String SettingsEngine :=
  if m.all (fun kv => e.valid kv.1) then
    Except.ok
      { e with
          store := m.foldl (fun s kv => fun k2 => if k2 = kv.1 then some kv.2 else s k2) e.store }
  else Except.error "invalid key in settings pack"

/-- `TorrentClient.apply_session_settings`
(src/core/torrent_client.py lines 348-368): one batch engine call inside a
try/except; the except arm logs and emits the error message.  Returns the
engine after the call and the emitted error messages. -/
def TC_apply_session_settings (e : SettingsEngine) (m : List (String × Int)) :
    SettingsEngine × List String :=
  match e.applyBatch m with
  | Except.ok e2 => (e2, [])
  | Except.error msg => (e, ["Error applying session settings: " ++ msg])

/-- The per-key loop of client.py: try each `{key: value}` alone, skip the
key on failure, and collect the successfully applied keys in order. -/
def applyEachSetting (e : SettingsEngine) : List (String × Int) → SettingsEngine × List String
  | [] => (e, [])
  | kv :: rest =>
    match e.applyOne kv.1 kv.2 with
    | Except.ok e2 =>
      let r := applyEachSetting e2 rest
      (r.1, kv.1 :: r.2)
    | Except.error _ => applyEachSetting e rest

/-- `TorrentClient.apply_session_settings` (src/core/client.py lines
11-31): per-key application with failure isolation, then
`self.current_settings` is rebuilt wholesale from
`self.session.get_settings()`.  Returns (engine after the calls, the new
cached `current_settings` view, successfully applied keys). -/
def Client_apply_session_settings (e : SettingsEngine) (m : List (String × Int)) :
    SettingsEngine × (String → Option Int) × List String :=
  let r := applyEachSetting e m
  (r.1, r.1.store, r.2)

lemma applyEachSetting_valid (e : SettingsEngine) (m : List (String × Int)) :
    (applyEachSetting e m).1.valid = e.valid := by
  induction m generalizing e with
  | nil => rfl
  | cons kv rest ih =>
    rw [applyEachSetting, SettingsEngine.applyOne]
    by_cases hv : e.valid kv.1 = true
    · rw [if_pos hv]
      exact ih _
    · rw [if_neg hv]
      exact ih e

/-- Keys that never occur in the map keep their stored value. -/
lemma applyEachSetting_not_mentioned (e : SettingsEngine) (m : List (String × Int))
    (k : String) (hk : k ∉ m.map Prod.fst) :
    (applyEachSetting e m).1.store k = e.store k := by
  induction m generalizing e with
  | nil => rfl
  | cons kv rest ih =>
    rw [List.map_cons, List.mem_cons] at hk
    push_neg at hk
    rw [applyEachSetting, SettingsEngine.applyOne]
    by_cases hv : e.valid kv.1 = true
    · rw [if_pos hv]
      have := ih { e with store := fun k2 => if k2 = kv.1 then some kv.2 else e.store k2 } hk.2
      simpa [hk.1] using this
    · rw [if_neg hv]
      exact ih e hk.2

/-- Invalid keys are never written. -/
lemma applyEachSetting_invalid (e : SettingsEngine) (m : List (String × Int))
    (k : String) (hk : e.valid k = false) :
    (applyEachSetting e m).1.store k = e.store k := by
  induction m generalizing e with
  | nil => rfl
  | cons kv rest ih =>
    rw [applyEachSetting, SettingsEngine.applyOne]
    by_cases hv : e.valid kv.1 = true
    · rw [if_pos hv]
      have hne : k ≠ kv.1 := by
        intro hEq
        rw [hEq, hv] at hk
        exact Bool.true_eq_false.mp hk
      have := ih { e with store := fun k2 => if k2 = kv.1 then some kv.2 else e.store k2 } hk
      simpa [hne] using this
    · rw [if_neg hv]
      exact ih e hk

/-- Valid keys of a map with pairwise-distinct keys end up applied. -/
lemma applyEachSetting_applied (e : SettingsEngine) (m : List (String × Int))
    (k : String) (v : Int) (hv : e.valid k = true) (hmem : (k, v) ∈ m)
    (hnd : (m.map Prod.fst).Nodup) :
    (applyEachSetting e m).1.store k = some v := by
  induction m generalizing e with
  | nil => cases hmem
  | cons kv rest ih =>
    rw [List.map_cons, List.nodup_cons] at hnd
    rw [List.mem_cons] at hmem
    rw [applyEachSetting, SettingsEngine.applyOne]
    rcases hmem with hEq | hmem
    · cases hEq
      rw [if_pos hv]
      have hk2 : k ∉ rest.map Prod.fst := hnd.1
      have := applyEachSetting_not_mentioned
        { e with store := fun k2 => if k2 = k then some v else e.store k2 } rest k hk2
      simpa using this
    · have hkne : k ∈ rest.map Prod.fst := List.mem_map.mpr ⟨(k, v), hmem, rfl⟩
      by_cases hv1 : e.valid kv.1 = true
      · rw [if_pos hv1]
        exact ih _ hv hmem hnd.2
      · rw [if_neg hv1]
        exact ih e hv hmem hnd.2

/-- A settings engine recognizing only the keys "a" and "b", with an empty
store; used with the map [("a",1), ("x",2), ("b",3)] — one invalid key
among two valid ones. -/
def settingsEngineW : SettingsEngine :=
  { valid := fun k => k == "a" || k == "b", store := fun _ => none }

def settingsMapW : List (String × Int) := [("a", 1), ("x", 2), ("b", 3)]

/-- Counterexample to C1: the `apply_session_settings` the application
instantiates (core/torrent_client.py) forwards the whole map in a single
engine call, so with one invalid key ("x") among two valid keys ("a", "b")
the batch is rejected as a whole — neither valid key is applied or
reflected in the effective settings, and an error is emitted — refuting
"all N valid keys are applied" key-by-key independence. -/
theorem settings_apply_batch_counterexample :
    (TC_apply_session_settings settingsEngineW settingsMapW).1.store "a" = none ∧
    (TC_apply_session_settings settingsEngineW settingsMapW).1.store "b" = none ∧
    (TC_apply_session_settings settingsEngineW settingsMapW).2 ≠ [] :=
  ⟨rfl, rfl, by decide⟩

/-- Claim C1 as amended: the per-key contract holds for the reconciler in
core/client.py: each key is tried in its own engine call, a rejected key
is skipped without disturbing the other keys (an invalid key's stored
value is untouched), every valid key of a duplicate-free map ends up
applied in the engine, and the cached `current_settings` view equals —
wholesale — the engine's effective settings re-read after the batch.  The
`apply_session_settings` in core/torrent_client.py (the one the GUI uses)
instead performs one batch call whose rejection skips the whole map. -/
theorem settings_reconciler_per_key (e : SettingsEngine) (m : List (String × Int)) :
    ((Client_apply_session_settings e m).2.1 = (Client_apply_session_settings e m).1.store) ∧
    (∀ k, e.valid k = false →
      (Client_apply_session_settings e m).1.store k = e.store k) ∧
    (∀ k v, e.valid k = true → (k, v) ∈ m → (m.map Prod.fst).Nodup →
      (Client_apply_session_settings e m).1.store k = some v) := by
  refine ⟨rfl, ?_, ?_⟩
  · intro k hk
    exact applyEachSetting_invalid e m k hk
  · intro k v hv hmem hnd
    exact applyEachSetting_applied e m k v hv hmem hnd

/-- Witness for the amended C1: on the same one-invalid-among-two-valid
map, the per-key reconciler applies both valid keys, leaves the invalid
key absent, and its cache equals the engine's effective settings. -/
theorem settings_reconciler_per_key_witness :
    (Client_apply_session_settings settingsEngineW settingsMapW).1.store "a" = some 1 ∧
    (Client_apply_session_settings settingsEngineW settingsMapW).1.store "b" = some 3 ∧
    (Client_apply_session_settings settingsEngineW settingsMapW).1.store "x" = none ∧
    (Client_apply_session_settings settingsEngineW settingsMapW).2.1
      = (Client_apply_session_settings settingsEngineW settingsMapW).1.store :=
  ⟨(settings_reconciler_per_key settingsEngineW settingsMapW).2.2 "a" 1
      (by decide) (by decide) (by decide),
   (settings_reconciler_per_key settingsEngineW settingsMapW).2.2 "b" 3
      (by decide) (by decide) (by decide),
   ((settings_reconciler_per_key settingsEngineW settingsMapW).2.1 "x" (by decide)).trans rfl,
   (settings_reconciler_per_key settingsEngineW settingsMapW).1⟩

/-! ## Resume-data persistence

Saving: the `save_resume_data_alert` arm of `_monitor_alerts`
(src/core/torrent_client.py lines 598-621) — guarded by a truthy info hash
and a truthy `alert.resume_data`; a dict payload is bencoded first
(`lt.bencode`), a bytes payload is written verbatim; an IOError during the
write is caught and logged.  The resume file path is
`<resume_dir>/<info_hash>.fastresume` (`_get_resume_filepath`, line 371).

Loading: `MainWindow.load_app_state` (src/gui/main_window.py lines
180-187) reads the file's bytes back verbatim.

The filesystem is a map from path to file bytes; `lt.bencode` belongs to
the external engine and is passed in as the serializer `benc`. -/

abbrev FileSystem := String → Option (List Nat)

/-- `alert.resume_data`: either a pre-serialized byte blob or a structured
map (whose values are opaque byte strings here) that must be bencoded
before writing. -/
inductive ResumePayload where
  | blob (b : List Nat)
  | table (entries : List (String × List Nat))
deriving DecidableEq

/-- Python truthiness of `alert.resume_data`: empty bytes and the empty
dict are falsy. -/
def ResumePayload.truthy : ResumePayload → Bool
  | .blob b => !b.isEmpty
  | .table d => !d.isEmpty

/-- The bytes the handler writes for a payload: the blob verbatim, or the
serialization of the map. -/
def writtenBytes (benc : List (String × List Nat) → List Nat) : ResumePayload → List Nat
  | .blob b => b
  | .table d => benc d

/-- `TorrentClient._get_resume_filepath`. -/
def resumeFilepath (resumeDir infoHash : String) : String :=
  resumeDir ++ "/" ++ infoHash ++ ".fastresume"

/-- The `save_resume_data_alert` handler: writes the (serialized) payload
to the per-hash resume file when the guard passes and the write does not
fail; otherwise the filesystem is untouched (warning/error logged). -/
def saveResumeFromAlert (benc : List (String × List Nat) → List Nat) (fs : FileSystem)
    (resumeDir : String) (infoHash : Option String) (payload : Option ResumePayload)
    (writeOk : Bool) : FileSystem :=
  match infoHash, payload with
  | some h, some p =>
    if p.truthy then
      if writeOk then
        fun k => if k = resumeFilepath resumeDir h then some (writtenBytes benc p) else fs k
      else fs
    else fs
  | _, _ => fs

/-- The resume-file read of `MainWindow.load_app_state`. -/
def loadResumeFile (fs : FileSystem) (resumeDir infoHash : String) : Option (List Nat) :=
  fs (resumeFilepath resumeDir infoHash)

/-- Claim C9: for every identity hash and every (truthy) resume payload
delivered by a resume-data alert — a pre-serialized byte blob or a
structured map serialized before the write, both supported — saving it and
then loading the resume file for that hash returns exactly the bytes that
were written: the blob verbatim, or the serialization of the map. -/
theorem resume_save_load_roundtrip (benc : List (String × List Nat) → List Nat)
    (fs : FileSystem) (resumeDir infoHash : String) (p : ResumePayload)
    (ht : p.truthy = true) :
    loadResumeFile (saveResumeFromAlert benc fs resumeDir (some infoHash) (some p) true)
        resumeDir infoHash
      = some (writtenBytes benc p) := by
  rw [loadResumeFile, saveResumeFromAlert, if_pos ht, if_pos rfl, if_pos rfl]

/-- Witness for C9: round trip at a concrete hash for both payload forms,
with a concrete serializer. -/
theorem resume_save_load_roundtrip_witness :
    loadResumeFile
        (saveResumeFromAlert (fun d => (d.map Prod.snd).flatten) (fun _ => none) "/data/resume"
          (some "abc123") (some (ResumePayload.blob [7, 8, 9])) true)
        "/data/resume" "abc123"
      = some [7, 8, 9] ∧
    loadResumeFile
        (saveResumeFromAlert (fun d => (d.map Prod.snd).flatten) (fun _ => none) "/data/resume"
          (some "abc123") (some (ResumePayload.table [("pieces", [1, 2])])) true)
        "/data/resume" "abc123"
      = some ((([("pieces", [1, 2])].map Prod.snd).flatten : List Nat)) :=
  ⟨resume_save_load_roundtrip (fun d => (d.map Prod.snd).flatten) (fun _ => none)
      "/data/resume" "abc123" (ResumePayload.blob [7, 8, 9]) (by decide),
   resume_save_load_roundtrip (fun d => (d.map Prod.snd).flatten) (fun _ => none)
      "/data/resume" "abc123" (ResumePayload.table [("pieces", [1, 2])]) (by decide)⟩

end DsTorrent
